import Mathlib

/-!
Verification of the playwright-failure-analyzer core against its
natural-language specification.

The development shallowly embeds the Python modules `parse_report.py`,
`error_handling.py`, `create_issue.py` and `utils.py`:

* Python dictionaries coming from the JSON report are embedded as typed
  records whose `Option` fields model present/absent keys; where the code's
  behaviour depends on a value having the wrong *shape* (a `.get` call on a
  non-dict raises `AttributeError`, caught by a surrounding `try`), a
  dedicated constructor (`nonObj`) models that shape.
* Python `str` values are embedded as Lean `String`s, except in
  `sanitize_for_github`, where per-character reasoning is needed and a string
  is embedded as its list of characters.
* Functions that raise typed `ActionError`s are embedded as functions
  returning `Option ActionError` (the raised error) or `Except ActionError α`.
* The `try/except` suppressing per-record parse errors is embedded as
  `Option`-valued record construction.
-/

namespace PFA

/-- `ErrorSeverity` from error_handling.py. -/
inductive ErrorSeverity : Type
  | LOW
  | MEDIUM
  | HIGH
  | CRITICAL
deriving DecidableEq, Repr

/-- The error-code constants of class `ErrorCodes` in error_handling.py. -/
inductive ErrorCode : Type
  | FILE_NOT_FOUND
  | FILE_READ_ERROR
  | FILE_WRITE_ERROR
  | INVALID_JSON
  | MISSING_TOKEN
  | INVALID_TOKEN
  | MISSING_REPOSITORY
  | INVALID_CONFIG
  | API_RATE_LIMIT
  | API_PERMISSION_DENIED
  | API_NOT_FOUND
  | API_SERVER_ERROR
  | API_NETWORK_ERROR
  | INVALID_REPORT_FORMAT
  | NO_TEST_RESULTS
  | CORRUPTED_REPORT
  | UNEXPECTED_ERROR
  | VALIDATION_ERROR
deriving DecidableEq, Repr

/-- The structured `details` dict attached by `GitHubAPIErrorHandler.handle_api_error`:
`{"status_code": ..., "response": ...}`. -/
structure ApiErrorDetails : Type where
  status_code : Nat
  response : String
deriving DecidableEq, Repr

/-- The `ActionError` dataclass from error_handling.py.  The `details` field is
modelled only for API errors (the one place a claim depends on its content);
validator errors carry `none` here, and the remediation `suggestions` texts
are elided (left `[]`) since no claim concerns them. -/
structure ActionError : Type where
  code : ErrorCode
  message : String
  severity : ErrorSeverity
  details : Option ApiErrorDetails := none
  suggestions : List String := []
deriving DecidableEq, Repr

/-- The pattern is an initial segment of the text (both as char lists). -/
def headMatch : List Char → List Char → Bool
  | [], _ => true
  | _ :: _, [] => false
  | p :: ps, c :: cs => p == c && headMatch ps cs

/-- The pattern occurs somewhere in the text: at the head, or in the tail.
The empty pattern occurs in every text (as in Python). -/
def occursIn (pat : List Char) : List Char → Bool
  | [] => pat.isEmpty
  | c :: cs => headMatch pat (c :: cs) || occursIn pat cs

/-- Python's substring test `pat in s`. -/
def strContains (s pat : String) : Bool :=
  occursIn pat.data s.data

/-- `_classify_error_type` from parse_report.py: first-matching keyword rule
over the lower-cased message. -/
def classify_error_type (error_message : String) : String :=
  let error_lower := error_message.toLower
  if strContains error_lower "timeout" || strContains error_lower "exceeded" then
    "timeout"
  else if strContains error_lower "selector" || strContains error_lower "element" then
    "selector"
  else if strContains error_lower "await" || strContains error_lower "promise" then
    "async"
  else if strContains error_lower "type" &&
      (strContains error_lower "error" || strContains error_lower "mismatch") then
    "type_error"
  else if strContains error_lower "import" || strContains error_lower "module" then
    "import_error"
  else if strContains error_lower "network" || strContains error_lower "fetch" ||
      strContains error_lower "request" then
    "network"
  else if strContains error_lower "assertion" || strContains error_lower "expect" then
    "assertion"
  else
    "unknown"

/-- `_get_fixability_hint` from parse_report.py (keyed off the coarse type). -/
def get_fixability_hint (error_message : String) : String :=
  let error_type := classify_error_type error_message
  if error_type = "timeout" then "medium - consider increasing timeout or improving wait conditions"
  else if error_type = "selector" then "high - check element selector matches DOM"
  else if error_type = "async" then "high - likely missing await on async function"
  else if error_type = "type_error" then "high - fix type annotation or value"
  else if error_type = "import_error" then "high - fix import path or install dependency"
  else if error_type = "network" then "low - may require infrastructure changes"
  else if error_type = "assertion" then "low - may require business logic review"
  else "low - needs manual investigation"

/-- `_detect_error_pattern` from parse_report.py. -/
def detect_error_pattern (error_message : String) : String :=
  let error_lower := error_message.toLower
  if strContains error_lower "waiting for selector" && strContains error_lower "timeout" then
    "selector_timeout"
  else if strContains error_lower "missing await" ||
      strContains error_lower "did you forget to await" then
    "missing_await"
  else if strContains error_lower "element is not attached" then
    "element_detached"
  else if strContains error_lower "navigation timeout" then
    "navigation_timeout"
  else if strContains error_lower "locator resolved to" && strContains error_lower "multiple" then
    "multiple_elements"
  else if strContains error_lower "cannot find module" then
    "module_not_found"
  else if strContains error_lower "type 'number' is not assignable" then
    "type_mismatch_number"
  else if strContains error_lower "type 'string' is not assignable" then
    "type_mismatch_string"
  else
    "unknown_pattern"

/-! ## Report tree model (parse_report.py / error_handling.py) -/

/-- The `"error"` field of a result dict.  `result.get("error", {})` yields an
empty dict when the key is absent; a present non-dict value makes the
subsequent `.get("message", ...)` raise `AttributeError` (caught by the
`try` in `_create_test_failure`), which `nonObj` models. -/
inductive ErrorField : Type
  | absent
  | objErr (message : Option String) (stack : Option String)
  | nonObj
deriving DecidableEq, Repr

/-- The `"location"` field of a test dict, with the same shape conventions as
`ErrorField`: `objLoc` is a dict with optional `file`/`line` keys, `nonObj`
a present value on which `.get` raises. -/
inductive LocationField : Type
  | absent
  | objLoc (file : Option String) (line : Option Int)
  | nonObj
deriving DecidableEq, Repr

/-- One result attempt of a test (an element of `test["results"]`). -/
structure ResultNode : Type where
  status : Option String
  error : ErrorField := .absent
  duration : Option Int := none
  retry : Option Int := none
  projectName : Option String := none
  workerIndex : Option Int := none
deriving DecidableEq, Repr

/-- One test dict (an element of `spec["tests"]`). -/
structure TestNode : Type where
  title : Option String
  location : LocationField := .absent
  results : List ResultNode := []
deriving DecidableEq, Repr

/-- One spec dict (an element of `suite["specs"]`). -/
structure SpecNode : Type where
  file : Option String
  tests : List TestNode := []
deriving DecidableEq, Repr

/-- One suite dict: may nest further suites and carry specs. -/
inductive SuiteNode : Type
  | mk (title : Option String) (suites : List SuiteNode) (specs : List SpecNode)

/-- The `TestFailure` dataclass from parse_report.py. -/
structure TestFailure : Type where
  test_name : String
  file_path : String
  line_number : Option Int
  error_message : String
  stack_trace : String
  duration : Int
  retry_count : Int
  project_name : Option String := none
  browser : Option String := none
deriving DecidableEq, Repr

/-- `error_info.get("message", "Unknown error")` where
`error_info = result.get("error", {})`; `none` models the `AttributeError`
raised when the `error` value is not a dict. -/
def errorInfoMessage : ErrorField → Option String
  | .absent => some "Unknown error"
  | .objErr m _ => some (m.getD "Unknown error")
  | .nonObj => none

/-- `error_info.get("stack", "")`, same conventions as `errorInfoMessage`. -/
def errorInfoStack : ErrorField → Option String
  | .absent => some ""
  | .objErr _ st => some (st.getD "")
  | .nonObj => none

/-- `location.get("file", spec.get("file", "unknown"))` where
`location = test.get("location", {})`; `none` models the raised
`AttributeError` when `location` is not a dict. -/
def locationFile (loc : LocationField) (specFile : Option String) : Option String :=
  match loc with
  | .absent => some (specFile.getD "unknown")
  | .objLoc f _ => some (f.getD (specFile.getD "unknown"))
  | .nonObj => none

/-- `location.get("line")`, with the outer `Option` modelling the exception. -/
def locationLine : LocationField → Option (Option Int)
  | .absent => some none
  | .objLoc _ l => some l
  | .nonObj => none

/-- `PlaywrightReportParser._create_test_failure`.  The whole body runs in a
`try` whose `except` logs a warning and returns `None`; the result is
therefore `Option TestFailure`, `none` exactly when a field access raises. -/
def create_test_failure (test : TestNode) (result : ResultNode) (spec : SpecNode)
    (suite_title : String) : Option TestFailure :=
  match errorInfoMessage result.error, errorInfoStack result.error,
      locationFile test.location spec.file, locationLine test.location with
  | some error_message, some stack_trace, some file_path, some line_number =>
    let test_title := test.title.getD "Unknown test"
    let full_title :=
      if suite_title.isEmpty then test_title else suite_title ++ " > " ++ test_title
    let project_name :=
      match result.projectName with
      | some p => some p
      | none => result.workerIndex.map (fun i => "worker-" ++ toString i)
    some
      { test_name := full_title
        file_path := file_path
        line_number := line_number
        error_message := error_message
        stack_trace := stack_trace
        duration := result.duration.getD 0
        retry_count := result.retry.getD 0
        project_name := project_name
        browser := none }
  | _, _, _, _ => none

/-- Status filter of `_extract_spec_failures`:
`result.get("status") in ["failed", "timedOut"]`. -/
def isReportableStatus (status : Option String) : Bool :=
  status = some "failed" || status = some "timedOut"

/-- `PlaywrightReportParser._extract_spec_failures`. -/
def extract_spec_failures (spec : SpecNode) (suite_title : String) : List TestFailure :=
  spec.tests.flatMap fun test =>
    test.results.filterMap fun result =>
      if isReportableStatus result.status then
        create_test_failure test result spec suite_title
      else none

mutual

/-- `PlaywrightReportParser._extract_suite_failures`: nested suites first
(pre-order), then this suite's own specs, qualified by this suite's title
(`suite.get("title", "")`). -/
def extract_suite_failures : SuiteNode → List TestFailure
  | .mk title suites specs =>
    extract_suites_failures suites ++
      specs.flatMap (fun spec => extract_spec_failures spec (title.getD ""))

/-- The `for nested_suite in suite.get("suites", [])` loop, over a suite list. -/
def extract_suites_failures : List SuiteNode → List TestFailure
  | [] => []
  | s :: rest => extract_suite_failures s ++ extract_suites_failures rest

end

/-! ## Report validation and `parse_failures` -/

/-- The `stats` object of the report: optional integer counts, each read with
`stats.get(key, 0)`. -/
structure Stats : Type where
  expected : Option Int := none
  unexpected : Option Int := none
  skipped : Option Int := none
  duration : Option Int := none
deriving DecidableEq, Repr

/-- A top-level JSON field that may be absent, well-shaped, or present with
the wrong container shape (`isinstance` check fails). -/
inductive JsonField (α : Type) : Type
  | absent
  | good (a : α)
  | badShape
deriving DecidableEq, Repr

/-- `field not in report_data` for a top-level field. -/
def JsonField.isAbsent {α : Type} : JsonField α → Bool
  | .absent => true
  | _ => false

/-- The `isinstance` container-shape check failing for a present field. -/
def JsonField.isBadShape {α : Type} : JsonField α → Bool
  | .badShape => true
  | _ => false

/-- The `config` object of the report.  `projects` models
`[p.get("name", "default") for p in config.get("projects", [])]`:
one optional name per project entry.  The pass-through `reportSlowTests` and
`use` keys carry no behaviour and are not modelled. -/
structure ConfigNode : Type where
  version : Option String := none
  projects : List (Option String) := []
  workers : Option Int := none
  testDir : Option String := none
  timeout : Option Int := none
deriving DecidableEq, Repr

/-- The loaded JSON report (`self.report_data`). -/
structure Report : Type where
  stats : JsonField Stats
  suites : JsonField (List SuiteNode)
  config : Option ConfigNode := none

/-- `report_data.get("stats", {})` as read by the validators and by
`parse_failures` after shape validation has passed.  (Standalone, a
`badShape` stats would make Python raise on `.get`; in every call site the
shape check of `validate_report_structure` runs first.) -/
def statsOf (r : Report) : Stats :=
  match r.stats with
  | .good s => s
  | _ => {}

/-- `report_data.get("suites", [])` after shape validation. -/
def suitesOf (r : Report) : List SuiteNode :=
  match r.suites with
  | .good l => l
  | _ => []

/-- `ReportValidator.validate_report_structure` from error_handling.py,
returning the raised `ActionError` (or `none` when the structure passes). -/
def validate_report_structure (r : Report) : Option ActionError :=
  let missing_fields :=
    (if r.stats.isAbsent then ["stats"] else []) ++
      (if r.suites.isAbsent then ["suites"] else [])
  if missing_fields ≠ [] then
    some
      { code := .INVALID_REPORT_FORMAT
        message := "Report missing required fields: " ++ String.intercalate ", " missing_fields
        severity := .HIGH }
  else if r.stats.isBadShape then
    some
      { code := .CORRUPTED_REPORT
        message := "Report stats section is not in expected format"
        severity := .HIGH }
  else if r.suites.isBadShape then
    some
      { code := .CORRUPTED_REPORT
        message := "Report suites section is not in expected format"
        severity := .HIGH }
  else none

/-- Total test count as computed by both `validate_has_test_results` and
`parse_failures`: `stats.get("expected", 0) + stats.get("unexpected", 0)
+ stats.get("skipped", 0)`. -/
def totalFromStats (s : Stats) : Int :=
  s.expected.getD 0 + s.unexpected.getD 0 + s.skipped.getD 0

/-- `ReportValidator.validate_has_test_results` from error_handling.py. -/
def validate_has_test_results (r : Report) : Option ActionError :=
  if totalFromStats (statsOf r) = 0 then
    some
      { code := .NO_TEST_RESULTS
        message := "No test results found in the report"
        severity := .MEDIUM }
  else none

/-- Modelled from the spec: `ReportValidator.validate_playwright_schema` is
called by `parse_failures` but its definition is not part of the provided
sources.  The spec's structural validation (§4.1) enumerates exactly three
failure modes — `INVALID_REPORT_FORMAT`, `CORRUPTED_REPORT`,
`NO_TEST_RESULTS` — all raised by `validate_report_structure` and
`validate_has_test_results`, so the schema check introduces no additional
rejection and is modelled as always passing. -/
def validate_playwright_schema (_r : Report) : Option ActionError :=
  none

/-- Run-metadata map assembled by `parse_failures` (the keys with defaults;
the pass-through `reporter`, `report_slow_tests` and `use` entries carry no
behaviour relevant to any claim). -/
structure Metadata : Type where
  total_tests : Int
  playwright_version : String
  projects : List String
  workers : Int
  test_dir : String
  timeout : Int
deriving DecidableEq, Repr

/-- The `FailureSummary` dataclass from parse_report.py. -/
structure FailureSummary : Type where
  total_tests : Int
  passed_tests : Int
  failed_tests : Int
  skipped_tests : Int
  duration : Int
  failures : List TestFailure
  metadata : Metadata
deriving DecidableEq, Repr

/-- `PlaywrightReportParser.parse_failures`, on an already-loaded report.
The cap is `Option Nat`: `validate_max_failures` admits only positive
integers, and `if max_failures and ...` makes both `None` and `0` skip
truncation.  Validation errors are returned through `Except`. -/
def parse_failures (r : Report) (max_failures : Option Nat := none) :
    Except ActionError FailureSummary :=
  match validate_report_structure r with
  | some e => .error e
  | none =>
    match validate_playwright_schema r with
    | some e => .error e
    | none =>
      match validate_has_test_results r with
      | some e => .error e
      | none =>
        let stats := statsOf r
        let total_tests := totalFromStats stats
        let passed_tests := stats.expected.getD 0
        let failed_tests := stats.unexpected.getD 0
        let skipped_tests := stats.skipped.getD 0
        let duration := stats.duration.getD 0
        let failures := extract_suites_failures (suitesOf r)
        let failures :=
          match max_failures with
          | some m => if m ≠ 0 ∧ failures.length > m then failures.take m else failures
          | none => failures
        let config := r.config.getD {}
        .ok
          { total_tests := total_tests
            passed_tests := passed_tests
            failed_tests := failed_tests
            skipped_tests := skipped_tests
            duration := duration
            failures := failures
            metadata :=
              { total_tests := total_tests
                playwright_version := config.version.getD "unknown"
                projects := config.projects.map (fun p => p.getD "default")
                workers := config.workers.getD 1
                test_dir := config.testDir.getD ""
                timeout := config.timeout.getD 30000 } }

/-! ## Tracker API client (create_issue.py / error_handling.py) -/

/-- An HTTP response as seen by the client: status code and body text. -/
structure HttpResponse : Type where
  status_code : Nat
  text : String
deriving DecidableEq, Repr

/-- `GitHubAPIErrorHandler.handle_api_error` from error_handling.py,
returning the `ActionError` it raises. -/
def handle_api_error (response : HttpResponse) : ActionError :=
  let status_code := response.status_code
  if status_code = 401 then
    { code := .INVALID_TOKEN
      message := "GitHub API authentication failed"
      severity := .CRITICAL
      details := some ⟨status_code, response.text⟩ }
  else if status_code = 403 then
    if strContains response.text.toLower "rate limit" then
      { code := .API_RATE_LIMIT
        message := "GitHub API rate limit exceeded"
        severity := .MEDIUM
        details := some ⟨status_code, response.text⟩ }
    else
      { code := .API_PERMISSION_DENIED
        message := "Insufficient permissions for GitHub API operation"
        severity := .CRITICAL
        details := some ⟨status_code, response.text⟩ }
  else if status_code = 404 then
    { code := .API_NOT_FOUND
      message := "GitHub API resource not found"
      severity := .HIGH
      details := some ⟨status_code, response.text⟩ }
  else if status_code ≥ 500 then
    { code := .API_SERVER_ERROR
      message := "GitHub API server error"
      severity := .MEDIUM
      details := some ⟨status_code, response.text⟩ }
  else
    { code := .API_SERVER_ERROR
      message := "GitHub API error: " ++ toString status_code
      severity := .HIGH
      details := some ⟨status_code, response.text⟩ }

/-- What one send of the request yields: an HTTP response (with the optional
parsed `Retry-After` header) or a transport-level `requests.RequestException`. -/
inductive AttemptOutcome : Type
  | resp (status : Nat) (retryAfter : Option Nat) (text : String)
  | transportError
deriving DecidableEq, Repr

/-- How `_make_request` ends. -/
inductive RequestOutcome : Type
  | ok (status : Nat) (text : String)
  | apiError (e : ActionError)
  | transportRaise
  | maxRetriesExceeded
deriving DecidableEq, Repr

/-- The `for attempt in range(max_retries)` loop of
`GitHubAPIClient._make_request`.  `outcomes i` is what sending the request on
attempt `i` yields; the returned list records every `time.sleep` duration in
order (a 429 sleeps `Retry-After` defaulting to 60, a non-final transport
error sleeps `2**attempt`).  `remaining` counts loop iterations left;
falling off the loop raises `RuntimeError("Max retries exceeded")`. -/
def request_loop (outcomes : Nat → AttemptOutcome) (max_retries : Nat) :
    Nat → Nat → List Nat → RequestOutcome × List Nat
  | 0, _, sleeps => (.maxRetriesExceeded, sleeps)
  | remaining + 1, attempt, sleeps =>
    match outcomes attempt with
    | .resp status retryAfter text =>
      if status = 429 then
        request_loop outcomes max_retries remaining (attempt + 1)
          (sleeps ++ [retryAfter.getD 60])
      else if status ≥ 400 then
        (.apiError (handle_api_error ⟨status, text⟩), sleeps)
      else
        (.ok status text, sleeps)
    | .transportError =>
      if attempt = max_retries - 1 then
        (.transportRaise, sleeps)
      else
        request_loop outcomes max_retries remaining (attempt + 1) (sleeps ++ [2 ^ attempt])

/-- `GitHubAPIClient._make_request` with its retry budget (default 3). -/
def make_request (outcomes : Nat → AttemptOutcome) (max_retries : Nat := 3) :
    RequestOutcome × List Nat :=
  request_loop outcomes max_retries max_retries 0 []

/-! ## Issue deduplication (create_issue.py) -/

/-- A tracker issue as returned by the search API (`number`, `title`,
`html_url`, open/closed state) together with its current body. -/
structure TrackerIssue : Type where
  number : Nat
  title : String
  html_url : String
  isOpen : Bool
  body : String
deriving DecidableEq, Repr

/-- The search call of `_find_existing_issue`: the query
`is:open is:issue in:title "<title>"` returns the open issues whose title
contains the target title, in the tracker's result order (modelled as the
state list's order). -/
def search_issues (issues : List TrackerIssue) (title : String) : List TrackerIssue :=
  issues.filter fun i => i.isOpen && strContains i.title title

/-- `IssueManager._find_existing_issue`: among search results, the first
whose title is an exact string match. -/
def find_existing_issue (issues : List TrackerIssue) (title : String) :
    Option TrackerIssue :=
  (search_issues issues title).find? fun i => i.title = title

/-- The single tracker mutation an invocation performs. -/
inductive IssueMutation : Type
  | createIssue (title body : String) (labels assignees : List String)
  | updateIssue (number : Nat) (body : String)
deriving DecidableEq, Repr

/-- The `(issue_number, issue_url, was_created)` triple returned by
`create_or_update_issue`. -/
structure InvokeResult : Type where
  number : Nat
  url : String
  was_created : Bool
deriving DecidableEq, Repr

/-- `update_issue(number, body=body)` applied to the tracker state: the issue
with that number gets the new body; number, title, url and state are
untouched (the `PATCH` payload contains only `body`). -/
def apply_update (issues : List TrackerIssue) (number : Nat) (body : String) :
    List TrackerIssue :=
  issues.map fun i => if i.number = number then { i with body := body } else i

/-- `create_issue(title, body, labels, assignees)` applied to the tracker
state: the tracker appends a fresh open issue, assigning `freshNumber` and
`freshUrl`. -/
def apply_create (issues : List TrackerIssue) (title body : String)
    (freshNumber : Nat) (freshUrl : String) : List TrackerIssue :=
  issues ++ [{ number := freshNumber, title := title, html_url := freshUrl,
               isOpen := true, body := body }]

/-- `IssueManager.create_or_update_issue` against a tracker state: the
returned triple, the one mutation performed, and the tracker state after that
mutation.  `freshNumber`/`freshUrl` are the tracker's choices for a created
issue. -/
def create_or_update_issue (issues : List TrackerIssue) (title body : String)
    (labels assignees : List String) (deduplicate : Bool)
    (freshNumber : Nat) (freshUrl : String) :
    InvokeResult × IssueMutation × List TrackerIssue :=
  if deduplicate then
    match find_existing_issue issues title with
    | some existing =>
      (⟨existing.number, existing.html_url, false⟩,
        .updateIssue existing.number body,
        apply_update issues existing.number body)
    | none =>
      (⟨freshNumber, freshUrl, true⟩,
        .createIssue title body labels assignees,
        apply_create issues title body freshNumber freshUrl)
  else
    (⟨freshNumber, freshUrl, true⟩,
      .createIssue title body labels assignees,
      apply_create issues title body freshNumber freshUrl)

/-- `k` successive invocations of `create_or_update_issue` with deduplication
enabled, the tracker evolving between invocations; `fresh i`/`freshUrl i`
are the tracker's choices if invocation `i` creates.  Returns every
invocation's `(triple, mutation)` in order, plus the final state. -/
def invoke_many (title body : String) (labels assignees : List String)
    (fresh : Nat → Nat) (freshUrl : Nat → String) :
    Nat → List TrackerIssue → List (InvokeResult × IssueMutation) × List TrackerIssue
  | 0, issues => ([], issues)
  | k + 1, issues =>
    let step := create_or_update_issue issues title body labels assignees true
      (fresh 0) (freshUrl 0)
    let rest := invoke_many title body labels assignees
      (fun n => fresh (n + 1)) (fun n => freshUrl (n + 1)) k step.2.2
    ((step.1, step.2.1) :: rest.1, rest.2)

/-! ## `sanitize_for_github` (utils.py)

For per-line reasoning a Python `str` is embedded as its list of characters
(Python indexes and slices strings by code point, as `List Char` does). -/

/-- First normalization pass, `text.replace('\r\n', '\n')`: left-to-right,
non-overlapping replacement of CRLF pairs. -/
def replaceCRLF : List Char → List Char
  | '\r' :: '\n' :: rest => '\n' :: replaceCRLF rest
  | c :: rest => c :: replaceCRLF rest
  | [] => []

/-- Second normalization pass, `.replace('\r', '\n')` (single-character
pattern, so a per-character map). -/
def replaceCR (cs : List Char) : List Char :=
  cs.map fun c => if c = '\r' then '\n' else c

/-- `sanitized.split('\n')`: Python's split on a one-character separator
(`''.split('\n') == ['']`, and a trailing separator yields a trailing
empty piece). -/
def splitLines : List Char → List (List Char)
  | [] => [[]]
  | c :: rest =>
    match splitLines rest with
    | [] => [[]]
    | l :: ls => if c = '\n' then [] :: l :: ls else (c :: l) :: ls

/-- `'\n'.join(lines)`. -/
def joinLines : List (List Char) → List Char
  | [] => []
  | [l] => l
  | l :: ls => l ++ '\n' :: joinLines ls

/-- The per-line cap applied by `sanitize_for_github`: a line longer than
1000 characters becomes its first 997 characters followed by `...`. -/
def capLine (line : List Char) : List Char :=
  if line.length > 1000 then line.take 997 ++ ['.', '.', '.'] else line

/-- `sanitize_for_github` from utils.py: normalize CRLF and lone CR to LF,
then cap every line at 1000 characters. -/
def sanitize_for_github (text : List Char) : List Char :=
  let sanitized := replaceCR (replaceCRLF text)
  joinLines ((splitLines sanitized).map capLine)

/-! ## Claim-side definitions (stated from the spec's words, for refinement
comparisons) -/

/-- The claim's coarse-classification rule, stated from the spec's words:
first-matching keyword rule over the case-insensitive message in the fixed
priority order timeout/exceeded, then selector/element, then await/promise,
then type with error-or-mismatch, then import/module, then
network/fetch/request, then assertion/expect, defaulting to unknown. -/
def classify_spec_chain (message : String) : String :=
  let l := message.toLower
  if strContains l "timeout" || strContains l "exceeded" then "timeout"
  else if strContains l "selector" || strContains l "element" then "selector"
  else if strContains l "await" || strContains l "promise" then "async"
  else if strContains l "type" && (strContains l "error" || strContains l "mismatch") then
    "type_error"
  else if strContains l "import" || strContains l "module" then "import_error"
  else if strContains l "network" || strContains l "fetch" || strContains l "request" then
    "network"
  else if strContains l "assertion" || strContains l "expect" then "assertion"
  else "unknown"

/-- The validation outcome the claim describes: `INVALID_REPORT_FORMAT` when
the top-level object lacks `stats` or `suites`; `CORRUPTED_REPORT` when one
is present with the wrong container shape; `NO_TEST_RESULTS` when the three
counts sum to zero; no error otherwise. -/
def validation_error_spec (r : Report) : Option ErrorCode :=
  if r.stats.isAbsent || r.suites.isAbsent then some .INVALID_REPORT_FORMAT
  else if r.stats.isBadShape || r.suites.isBadShape then some .CORRUPTED_REPORT
  else if totalFromStats (statsOf r) = 0 then some .NO_TEST_RESULTS
  else none

/-- The validator sequence run by `parse_failures`: structure check, schema
check, then the test-results check; the first raised error wins. -/
def run_validations (r : Report) : Option ActionError :=
  match validate_report_structure r with
  | some e => some e
  | none =>
    match validate_playwright_schema r with
    | some e => some e
    | none => validate_has_test_results r

/-! ## Theorems for the claims -/

/-- C6: the coarse-type classifier is total and deterministic — for every
input string it returns exactly one of the eight defined coarse types, and it
equals the claim's first-matching keyword chain in the stated priority order;
the pattern-tag classifier likewise always returns one of the nine defined
tags (with `unknown_pattern` as the default).  Both are plain functions, so
they are deterministic and never raise. -/
theorem C6_classifier_total_deterministic (s : String) :
    classify_error_type s ∈
      ["timeout", "selector", "async", "type_error", "import_error", "network",
        "assertion", "unknown"] ∧
    classify_error_type s = classify_spec_chain s ∧
    detect_error_pattern s ∈
      ["selector_timeout", "missing_await", "element_detached", "navigation_timeout",
        "multiple_elements", "module_not_found", "type_mismatch_number",
        "type_mismatch_string", "unknown_pattern"] := by
  refine ⟨?_, rfl, ?_⟩
  · unfold classify_error_type
    dsimp only
    split_ifs <;> simp
  · unfold detect_error_pattern
    dsimp only
    split_ifs <;> simp

/-- C7: for every non-2xx, non-429 response, `handle_api_error` raises the
taxonomy error determined exactly by the status code — 401 is invalid-token
with CRITICAL severity; 403 with rate-limit phrasing in the body is
rate-limit with MEDIUM and any other 403 permission-denied with CRITICAL;
404 is not-found with HIGH; 500 and above is server-error with MEDIUM; every
other error status is server-error with HIGH — and in every case the raised
error's structured details carry the raw status code and response body. -/
theorem C7_api_error_translation (r : HttpResponse)
    (_hnot2xx : ¬(200 ≤ r.status_code ∧ r.status_code < 300))
    (_hnot429 : r.status_code ≠ 429) :
    (handle_api_error r).details = some ⟨r.status_code, r.text⟩ ∧
    (r.status_code = 401 →
      (handle_api_error r).code = .INVALID_TOKEN ∧
        (handle_api_error r).severity = .CRITICAL) ∧
    (r.status_code = 403 → strContains r.text.toLower "rate limit" = true →
      (handle_api_error r).code = .API_RATE_LIMIT ∧
        (handle_api_error r).severity = .MEDIUM) ∧
    (r.status_code = 403 → strContains r.text.toLower "rate limit" = false →
      (handle_api_error r).code = .API_PERMISSION_DENIED ∧
        (handle_api_error r).severity = .CRITICAL) ∧
    (r.status_code = 404 →
      (handle_api_error r).code = .API_NOT_FOUND ∧
        (handle_api_error r).severity = .HIGH) ∧
    (500 ≤ r.status_code →
      (handle_api_error r).code = .API_SERVER_ERROR ∧
        (handle_api_error r).severity = .MEDIUM) ∧
    (r.status_code ≠ 401 → r.status_code ≠ 403 → r.status_code ≠ 404 →
        r.status_code < 500 →
      (handle_api_error r).code = .API_SERVER_ERROR ∧
        (handle_api_error r).severity = .HIGH) := by
  unfold handle_api_error
  dsimp only
  split_ifs <;> simp_all

/-- C7 witness: evaluating the translation at a concrete 404 response. -/
theorem C7_api_error_translation_witness :
    (handle_api_error ⟨404, "missing"⟩).details = some ⟨404, "missing"⟩ ∧
    (handle_api_error ⟨404, "missing"⟩).code = .API_NOT_FOUND ∧
    (handle_api_error ⟨404, "missing"⟩).severity = .HIGH := by
  obtain ⟨hd, -, -, -, h404, -⟩ :=
    C7_api_error_translation ⟨404, "missing"⟩ (by decide) (by decide)
  exact ⟨hd, (h404 rfl).1, (h404 rfl).2⟩

/-- C8: the validator sequence raises exactly the typed error the claim
names — `INVALID_REPORT_FORMAT` when `stats` or `suites` is missing,
`CORRUPTED_REPORT` when one is present with the wrong container shape,
`NO_TEST_RESULTS` when the three counts sum to zero — and raises nothing on
a report passing all three checks. -/
theorem C8_validation_errors (r : Report) :
    (run_validations r).map ActionError.code = validation_error_spec r := by
  obtain ⟨stats, suites, config⟩ := r
  cases stats <;> cases suites <;>
    simp only [run_validations, validate_report_structure,
      validate_playwright_schema, validate_has_test_results,
      validation_error_spec, JsonField.isAbsent, JsonField.isBadShape, statsOf] <;>
    split_ifs <;> simp_all

/-- Length of the possibly-truncated failure list, bounded by the length of
the untruncated extraction. -/
theorem truncate_length_le (l : List TestFailure) (cap : Option Nat) :
    (match cap with
     | some m => if m ≠ 0 ∧ l.length > m then l.take m else l
     | none => l).length ≤ l.length := by
  split
  · split_ifs
    · simp [List.length_take]
    · exact le_refl _
  · exact le_refl _

/-- Projection of a parse result onto the pair
(length of the failure list, reported failed-test count). -/
def summary_counts (res : Except ActionError FailureSummary) : Option (Nat × Int) :=
  match res with
  | .ok s => some (s.failures.length, s.failed_tests)
  | .error _ => none

/-- The summary of a successful parse (a zeroed summary on error; used only
at inputs where the parse succeeds). -/
def summary_or_default (res : Except ActionError FailureSummary) : FailureSummary :=
  match res with
  | .ok s => s
  | .error _ => ⟨0, 0, 0, 0, 0, [], ⟨0, "", [], 0, "", 0⟩⟩

/-- A report whose `stats` section claims a single unexpected test while its
suites tree holds two reportable failures (two failed result attempts).
It passes validation since the counts sum to 1. -/
def report_overcount : Report :=
  { stats := .good { expected := some 0, unexpected := some 1, skipped := some 0,
                     duration := some 0 }
    suites := .good
      [ .mk (some "S") []
          [ { file := some "f.ts"
              tests :=
                [ { title := some "t", location := .absent
                    results :=
                      [ { status := some "failed" }, { status := some "failed" } ] } ] } ] ] }

/-- C1 counterexample: on `report_overcount` with cap 5, the failure list has
the untruncated traversal length 2, but `failed_tests` is the stats section's
unexpected count 1, not the traversal count — refuting the claim that
`failed_tests` always equals the actual failure count found by traversal. -/
theorem C1_counterexample :
    (extract_suites_failures (suitesOf report_overcount)).length = 2 ∧
    summary_counts (parse_failures report_overcount (some 5)) = some (2, 1) ∧
    (1 : Int) ≠ 2 := ⟨rfl, rfl, by decide⟩

/-- C1 (amended): for every report accepted by validation and every positive
cap C, the failure list of the summary has length
`min(actual_traversal_count, C)`, and `failed_tests` equals the stats
section's unexpected count (unaffected by the cap). -/
theorem C1_truncation_amended (r : Report) (C : Nat) (hC : 1 ≤ C) (s : FailureSummary)
    (h : parse_failures r (some C) = .ok s) :
    s.failures.length = min (extract_suites_failures (suitesOf r)).length C ∧
    s.failed_tests = (statsOf r).unexpected.getD 0 := by
  unfold parse_failures at h
  split at h
  · cases h
  · split at h
    · cases h
    · split at h
      · cases h
      · dsimp only at h
        rw [Except.ok.injEq] at h
        subst h
        constructor
        · dsimp only
          split_ifs with hc
          · simp [List.length_take]
            omega
          · push_neg at hc
            have := hc (by omega)
            omega
        · rfl

/-- C1 witness: the amended truncation law evaluated at `report_overcount`
with cap 1. -/
theorem C1_truncation_amended_witness :
    1 ≤ 1 ∧
    ((summary_or_default (parse_failures report_overcount (some 1))).failures.length =
        min (extract_suites_failures (suitesOf report_overcount)).length 1 ∧
      (summary_or_default (parse_failures report_overcount (some 1))).failed_tests =
        (statsOf report_overcount).unexpected.getD 0) :=
  ⟨le_refl 1, C1_truncation_amended report_overcount 1 (le_refl 1) _ rfl⟩

/-- A report whose `stats` section has no unexpected tests while its suites
tree holds one reportable failure; it passes validation (one expected test). -/
def report_undercount : Report :=
  { stats := .good { expected := some 1, unexpected := some 0, skipped := some 0,
                     duration := some 0 }
    suites := .good
      [ .mk (some "S") []
          [ { file := some "f.ts"
              tests :=
                [ { title := some "t", location := .absent
                    results := [ { status := some "failed" } ] } ] } ] ] }

/-- C2 counterexample: `report_undercount` is accepted by validation, yet its
summary has one failure in the list and `failed_tests = 0`, refuting
`len(failures) <= failed_tests` for every produced summary. -/
theorem C2_counterexample :
    summary_counts (parse_failures report_undercount none) = some (1, 0) ∧
    ¬((1 : Int) ≤ 0) := ⟨rfl, by decide⟩

/-- C2 (amended): every summary produced by `parse_failures` satisfies
`total_tests = passed_tests + failed_tests + skipped_tests`; the failure
list never exceeds the untruncated traversal count; and
`len(failures) <= failed_tests` holds whenever the stats section's
unexpected count bounds the traversal count (as in any consistent report). -/
theorem C2_invariants_amended (r : Report) (cap : Option Nat) (s : FailureSummary)
    (h : parse_failures r cap = .ok s) :
    s.total_tests = s.passed_tests + s.failed_tests + s.skipped_tests ∧
    s.failures.length ≤ (extract_suites_failures (suitesOf r)).length ∧
    (((extract_suites_failures (suitesOf r)).length : Int) ≤ s.failed_tests →
      (s.failures.length : Int) ≤ s.failed_tests) := by
  unfold parse_failures at h
  split at h
  · cases h
  · split at h
    · cases h
    · split at h
      · cases h
      · dsimp only at h
        rw [Except.ok.injEq] at h
        subst h
        exact ⟨rfl, truncate_length_le _ cap,
          fun hb => le_trans (by exact_mod_cast truncate_length_le _ cap) hb⟩

/-- A report whose stats agree with its suites tree: one passed, one failed. -/
def report_consistent : Report :=
  { stats := .good { expected := some 1, unexpected := some 1, skipped := some 0,
                     duration := some 0 }
    suites := .good
      [ .mk (some "S") []
          [ { file := some "f.ts"
              tests :=
                [ { title := some "t", location := .absent
                    results := [ { status := some "failed" } ] } ] } ] ] }

/-- C2 witness: the amended invariants evaluated at `report_consistent`. -/
theorem C2_invariants_amended_witness :
    (summary_or_default (parse_failures report_consistent none)).total_tests =
      (summary_or_default (parse_failures report_consistent none)).passed_tests +
        (summary_or_default (parse_failures report_consistent none)).failed_tests +
        (summary_or_default (parse_failures report_consistent none)).skipped_tests ∧
    ((summary_or_default (parse_failures report_consistent none)).failures.length : Int) ≤
      (summary_or_default (parse_failures report_consistent none)).failed_tests := by
  obtain ⟨h1, -, h3⟩ := C2_invariants_amended report_consistent none _ rfl
  exact ⟨h1, h3 (by decide)⟩

/-- C5 counterexample: a result attempt with status `failed` whose `error`
field is present but not a mapping produces no failure record (the record
constructor raises and the record is skipped), refuting the left-to-right
direction of the claimed iff. -/
theorem C5_counterexample :
    ({ status := some "failed", error := .nonObj } : ResultNode).status = some "failed" ∧
    extract_spec_failures
      ⟨some "f.ts", [⟨some "t", .absent, [{ status := some "failed", error := .nonObj }]⟩]⟩
      "S" = [] := ⟨rfl, rfl⟩

/-- C5 (amended): a result attempt produces a failure record iff its status
is `failed` or `timedOut` *and* record construction does not hit a malformed
field: (i) non-reportable statuses never produce a record; (ii) whenever the
`error` and `location` fields are well-shaped, the record exists and its
`test_name` is `<suite_title> > <test_title>` for a non-empty suite title and
`<test_title>` otherwise; (iii) only the innermost suite's title is used —
an enclosing suite's own title is irrelevant to failures coming from nested
suites; (iv) the nested-suite scenario yields exactly one failure named with
the innermost suite's title. -/
theorem C5_flattening_amended :
    (∀ (spec : SpecNode) (title : String),
      (∀ t ∈ spec.tests, ∀ res ∈ t.results, isReportableStatus res.status = false) →
      extract_spec_failures spec title = []) ∧
    (∀ (test : TestNode) (result : ResultNode) (spec : SpecNode) (suite_title : String),
      result.error ≠ .nonObj → test.location ≠ .nonObj →
      (create_test_failure test result spec suite_title).map TestFailure.test_name =
        some (if suite_title.isEmpty then test.title.getD "Unknown test"
              else suite_title ++ " > " ++ test.title.getD "Unknown test")) ∧
    (∀ (t t' : Option String) (suites : List SuiteNode),
      extract_suite_failures (.mk t suites []) = extract_suite_failures (.mk t' suites [])) ∧
    (extract_suite_failures
        (.mk (some "Outer")
          [.mk (some "Inner") []
            [⟨some "f.ts",
              [⟨some "nested test", .absent,
                [⟨some "failed", .absent, none, none, none, none⟩]⟩]⟩]] [])).map
      TestFailure.test_name = ["Inner > nested test"] := by
  refine ⟨?_, ?_, ?_, rfl⟩
  · intro spec title h
    unfold extract_spec_failures
    rw [List.flatMap_eq_nil_iff]
    intro t ht
    rw [List.filterMap_eq_nil_iff]
    intro res hres
    simp [h t ht res hres]
  · intro test result spec suite_title herr hloc
    obtain ⟨tt, tl, tr⟩ := test
    obtain ⟨rs, re, rd, rr, rp, rw⟩ := result
    cases re <;> cases tl <;>
      first
        | exact absurd rfl herr
        | exact absurd rfl hloc
        | simp [create_test_failure, errorInfoMessage, errorInfoStack, locationFile,
            locationLine]
  · intro t t' suites
    simp [extract_suite_failures]

/-- C5 witness: a spec whose only result has status `passed` yields no
failure records. -/
theorem C5_flattening_amended_witness :
    extract_spec_failures
      ⟨some "f.ts", [⟨some "t", .absent, [{ status := some "passed" }]⟩]⟩ "S" = [] :=
  C5_flattening_amended.1
    ⟨some "f.ts", [⟨some "t", .absent, [{ status := some "passed" }]⟩]⟩ "S" (by decide)

/-- C9: an exception while constructing a single failure record never aborts
the extraction — a test all of whose reportable results fail record
construction contributes nothing, while every record of the surrounding
tests is still produced (the extraction of the list with the bad test spliced
in equals the concatenation of the extractions without it); and the scenario:
a test entry missing its `title` and `location` fields still yields exactly
one failure record whose `test_name` carries the default placeholder
`Unknown test`. -/
theorem C9_per_record_isolation :
    (∀ (file : Option String) (l1 l2 : List TestNode) (tbad : TestNode) (title : String),
      (∀ res ∈ tbad.results, isReportableStatus res.status = true →
        create_test_failure tbad res ⟨file, l1 ++ tbad :: l2⟩ title = none) →
      extract_spec_failures ⟨file, l1 ++ tbad :: l2⟩ title =
        extract_spec_failures ⟨file, l1⟩ title ++ extract_spec_failures ⟨file, l2⟩ title) ∧
    (extract_spec_failures
        ⟨some "tests/malformed.spec.ts",
          [⟨none, .absent, [⟨some "failed", .absent, some 1000, none, none, none⟩]⟩]⟩
        "Test Suite").map TestFailure.test_name = ["Test Suite > Unknown test"] ∧
    strContains "Test Suite > Unknown test" "Unknown test" = true := by
  refine ⟨?_, rfl, by decide⟩
  intro file l1 l2 tbad title hbad
  unfold extract_spec_failures
  rw [List.flatMap_append, List.flatMap_cons]
  have hmid : tbad.results.filterMap (fun result =>
      if isReportableStatus result.status then
        create_test_failure tbad result ⟨file, l1 ++ tbad :: l2⟩ title
      else none) = [] := by
    rw [List.filterMap_eq_nil_iff]
    intro res hres
    by_cases hrep : isReportableStatus res.status
    · simp [hrep, hbad res hres hrep]
    · simp [hrep]
  rw [hmid]
  have hg1 : (fun (test : TestNode) =>
      test.results.filterMap (fun result =>
        if isReportableStatus result.status then
          create_test_failure test result ⟨file, l1 ++ tbad :: l2⟩ title
        else none)) =
      (fun (test : TestNode) =>
      test.results.filterMap (fun result =>
        if isReportableStatus result.status then
          create_test_failure test result ⟨file, l1⟩ title
        else none)) := rfl
  have hg2 : (fun (test : TestNode) =>
      test.results.filterMap (fun result =>
        if isReportableStatus result.status then
          create_test_failure test result ⟨file, l1 ++ tbad :: l2⟩ title
        else none)) =
      (fun (test : TestNode) =>
      test.results.filterMap (fun result =>
        if isReportableStatus result.status then
          create_test_failure test result ⟨file, l2⟩ title
        else none)) := rfl
  rw [← hg1, ← hg2]
  simp

/-- C9 witness: splicing a test whose only (failed) result has a malformed
`error` field between a good test and nothing drops only the bad record. -/
theorem C9_per_record_isolation_witness :
    extract_spec_failures
      ⟨some "f.ts",
        [⟨some "good", .absent, [{ status := some "failed" }]⟩,
          ⟨some "bad", .absent, [{ status := some "failed", error := .nonObj }]⟩]⟩ "S" =
      extract_spec_failures
        ⟨some "f.ts", [⟨some "good", .absent, [{ status := some "failed" }]⟩]⟩ "S" ++
        extract_spec_failures (⟨some "f.ts", []⟩ : SpecNode) "S" :=
  C9_per_record_isolation.1 (some "f.ts")
    [⟨some "good", .absent, [{ status := some "failed" }]⟩] []
    ⟨some "bad", .absent, [{ status := some "failed", error := .nonObj }]⟩ "S" (by decide)

/-- C4 counterexample: three consecutive 429 responses exhaust the retry
budget of 3 — the loop falls through and raises `RuntimeError("Max retries
exceeded")` — refuting the claim that a 429 retries the same attempt without
consuming a retry credit and that 429s alone can never exhaust the budget.
(Each 429 did sleep the default 60 seconds first.) -/
theorem C4_counterexample :
    make_request (fun _ => .resp 429 none "") 3 =
      (.maxRetriesExceeded, [60, 60, 60]) := rfl

/-- Helper for the all-429 case: with every attempt rate-limited, the loop
sleeps `Retry-After` (default 60) once per remaining attempt and then raises
max-retries-exceeded. -/
theorem request_loop_all_429 (outcomes : Nat → AttemptOutcome) (ra : Option Nat)
    (text : String) (h : ∀ i, outcomes i = .resp 429 ra text) :
    ∀ (remaining attempt : Nat) (sleeps : List Nat) (max_retries : Nat),
      request_loop outcomes max_retries remaining attempt sleeps =
        (.maxRetriesExceeded, sleeps ++ List.replicate remaining (ra.getD 60)) := by
  intro remaining
  induction remaining with
  | zero => intro attempt sleeps mr; simp [request_loop]
  | succ n ih =>
    intro attempt sleeps mr
    rw [request_loop, h attempt]
    simp only [reduceIte]
    rw [ih (attempt + 1) (sleeps ++ [ra.getD 60]) mr]
    simp [List.replicate_succ]

/-- C4 (amended): a 429 response makes the client sleep for the
server-specified `Retry-After` interval (60 seconds when the header is
absent) and then proceed to the *next* attempt of the loop, consuming a
retry credit; consequently `max_retries` consecutive 429 responses exhaust
the budget and the request fails with max-retries-exceeded, while a single
429 followed by a successful response still succeeds after one sleep. -/
theorem C4_rate_limit_amended (outcomes : Nat → AttemptOutcome) :
    (∀ (ra : Option Nat) (text : String) (remaining attempt max_retries : Nat)
        (sleeps : List Nat),
      outcomes attempt = .resp 429 ra text →
      request_loop outcomes max_retries (remaining + 1) attempt sleeps =
        request_loop outcomes max_retries remaining (attempt + 1)
          (sleeps ++ [ra.getD 60])) ∧
    (∀ (ra : Option Nat) (text : String) (n : Nat),
      (∀ i, outcomes i = .resp 429 ra text) →
      make_request outcomes n = (.maxRetriesExceeded, List.replicate n (ra.getD 60))) ∧
    (∀ (ra rb : Option Nat) (t : String) (s : Nat) (tx : String),
      outcomes 0 = .resp 429 ra t → outcomes 1 = .resp s rb tx → s ≠ 429 → s < 400 →
      make_request outcomes 3 = (.ok s tx, [ra.getD 60])) := by
  refine ⟨?_, ?_, ?_⟩
  · intro ra text remaining attempt mr sleeps h
    rw [request_loop, h]
    simp
  · intro ra text n h
    unfold make_request
    rw [request_loop_all_429 outcomes ra text h n 0 [] n]
    simp
  · intro ra rb t s tx h0 h1 hs429 hs400
    unfold make_request
    rw [request_loop, h0]
    simp only [reduceIte, List.nil_append]
    rw [request_loop, h1]
    simp [hs429, Nat.not_le.mpr hs400]

/-- C4 witness: a 429 with `Retry-After: 1` followed by a 200 sleeps one
second and then succeeds. -/
theorem C4_rate_limit_amended_witness :
    make_request
        (fun i => if i = 0 then .resp 429 (some 1) "" else .resp 200 none "ok") 3 =
      (.ok 200 "ok", [1]) :=
  (C4_rate_limit_amended
      (fun i => if i = 0 then .resp 429 (some 1) "" else .resp 200 none "ok")).2.2
    (some 1) none "" 200 "ok" rfl rfl (by decide) (by decide)

/-- `find?` over a filtered list looks for the conjunction of the two
predicates. -/
theorem find?_filter {α : Type} (l : List α) (p q : α → Bool) :
    (l.filter p).find? q = l.find? (fun x => p x && q x) := by
  induction l with
  | nil => rfl
  | cons a t ih =>
    simp only [List.filter_cons]
    by_cases hp : p a
    · by_cases hq : q a <;> simp [hp, hq, List.find?_cons, ih]
    · simp [hp, List.find?_cons, ih]

/-- The dedup lookup is a single `find?` over the tracker state: the first
open issue whose title contains the target and matches it exactly. -/
theorem find_existing_eq_find? (issues : List TrackerIssue) (title : String) :
    find_existing_issue issues title =
      issues.find? (fun i =>
        (i.isOpen && strContains i.title title) && decide (i.title = title)) := by
  unfold find_existing_issue search_issues
  exact find?_filter ..

/-- Updating an issue's body does not change which issue the dedup lookup
finds (title, open state, number and url are all preserved). -/
theorem find_existing_update (issues : List TrackerIssue) (title body : String) (n : Nat) :
    find_existing_issue (apply_update issues n body) title =
      (find_existing_issue issues title).map
        (fun i => if i.number = n then { i with body := body } else i) := by
  unfold apply_update
  rw [find_existing_eq_find?, find_existing_eq_find?, List.find?_map]
  have hpred : ((fun (i : TrackerIssue) =>
        (i.isOpen && strContains i.title title) && decide (i.title = title)) ∘
      (fun i => if i.number = n then { i with body := body } else i)) =
      (fun (i : TrackerIssue) =>
        (i.isOpen && strContains i.title title) && decide (i.title = title)) := by
    funext i
    by_cases h : i.number = n <;> simp [Function.comp, h]
  rw [hpred]

/-- C3: with deduplication enabled, (i) any issue selected by the dedup
lookup has exactly the target title — substring-only search hits are never
selected; (ii) when the lookup finds an exact open match,
`create_or_update_issue` returns that issue's number with
`was_created = false` and performs exactly one update, never a create;
(iii) this holds for every one of `k` successive invocations, however large
`k` is, since updating a body preserves what the lookup finds; (iv) when no
exact match exists among the search results, the invocation performs exactly
one create and returns `was_created = true`. -/
theorem C3_dedup_idempotent :
    (∀ (issues : List TrackerIssue) (title : String) (i : TrackerIssue),
      find_existing_issue issues title = some i → i.title = title) ∧
    (∀ (issues : List TrackerIssue) (title body : String) (labels assignees : List String)
        (fN : Nat) (fU : String) (it : TrackerIssue),
      find_existing_issue issues title = some it →
      create_or_update_issue issues title body labels assignees true fN fU =
        (⟨it.number, it.html_url, false⟩, .updateIssue it.number body,
          apply_update issues it.number body)) ∧
    (∀ (k : Nat) (issues : List TrackerIssue) (it : TrackerIssue) (title body : String)
        (labels assignees : List String) (fresh : Nat → Nat) (freshUrl : Nat → String),
      find_existing_issue issues title = some it →
      ∀ p ∈ (invoke_many title body labels assignees fresh freshUrl k issues).1,
        p.1 = ⟨it.number, it.html_url, false⟩ ∧ p.2 = .updateIssue it.number body) ∧
    (∀ (issues : List TrackerIssue) (title body : String) (labels assignees : List String)
        (fN : Nat) (fU : String),
      find_existing_issue issues title = none →
      create_or_update_issue issues title body labels assignees true fN fU =
        (⟨fN, fU, true⟩, .createIssue title body labels assignees,
          apply_create issues title body fN fU)) := by
  refine ⟨?_, ?_, ?_, ?_⟩
  · intro issues title i h
    rw [find_existing_eq_find?] at h
    have := List.find?_some h
    simp at this
    exact this.2
  · intro issues title body labels assignees fN fU it h
    simp [create_or_update_issue, h]
  · intro k
    induction k with
    | zero =>
      intro issues it title body labels assignees fresh freshUrl h p hp
      simp [invoke_many] at hp
    | succ n ih =>
      intro issues it title body labels assignees fresh freshUrl h p hp
      rw [invoke_many] at hp
      simp only [create_or_update_issue, h] at hp
      rw [List.mem_cons] at hp
      rcases hp with hph | hpt
      · subst hph; exact ⟨rfl, rfl⟩
      · have hnext : find_existing_issue (apply_update issues it.number body) title =
            some { it with body := body } := by
          rw [find_existing_update, h]
          simp
        exact ih (apply_update issues it.number body) { it with body := body }
          title body labels assignees
          (fun n => fresh (n + 1)) (fun n => freshUrl (n + 1)) hnext p hpt
  · intro issues title body labels assignees fN fU h
    simp [create_or_update_issue, h]

/-- A tracker state holding a substring-only hit (issue 7) and an exact
open match (issue 9) for the target title. -/
def issues_demo : List TrackerIssue :=
  [ ⟨7, "Playwright Test Failures - January run", "u7", true, "old"⟩,
    ⟨9, "Playwright Test Failures", "u9", true, "old"⟩ ]

/-- C3 witness: on `issues_demo` the dedup lookup skips the substring-only
hit, selects the exact match, and the invocation updates issue 9, returning
`was_created = false`. -/
theorem C3_dedup_idempotent_witness :
    find_existing_issue issues_demo "Playwright Test Failures" =
      some ⟨9, "Playwright Test Failures", "u9", true, "old"⟩ ∧
    create_or_update_issue issues_demo "Playwright Test Failures" "new" [] [] true 50 "u50" =
      (⟨9, "u9", false⟩, .updateIssue 9 "new", apply_update issues_demo 9 "new") := by
  have h : find_existing_issue issues_demo "Playwright Test Failures" =
      some ⟨9, "Playwright Test Failures", "u9", true, "old"⟩ := by decide
  exact ⟨h, C3_dedup_idempotent.2.1 issues_demo "Playwright Test Failures" "new" [] []
    50 "u50" _ h⟩

/-- The line splitter never returns an empty list of lines. -/
theorem splitLines_ne_nil (cs : List Char) : splitLines cs ≠ [] := by
  cases cs with
  | nil => simp [splitLines]
  | cons c rest =>
    unfold splitLines
    cases h : splitLines rest with
    | nil => simp
    | cons l ls => by_cases hc : c = '\n' <;> simp [hc]

/-- Unfolding equation for `splitLines` on a cons, given the split of the
tail. -/
theorem splitLines_cons_eq (c : Char) (rest l0 : List Char) (ls : List (List Char))
    (h : splitLines rest = l0 :: ls) :
    splitLines (c :: rest) = if c = '\n' then [] :: l0 :: ls else (c :: l0) :: ls := by
  unfold splitLines
  rw [h]

/-- No piece returned by the line splitter contains a newline. -/
theorem mem_splitLines_no_newline (cs : List Char) :
    ∀ l ∈ splitLines cs, '\n' ∉ l := by
  induction cs with
  | nil =>
    intro l hl
    simp [splitLines] at hl
    subst hl
    simp
  | cons c rest ih =>
    intro l hl
    obtain ⟨l0, ls, h⟩ := List.exists_cons_of_ne_nil (splitLines_ne_nil rest)
    rw [splitLines_cons_eq c rest l0 ls h] at hl
    rw [h] at ih
    by_cases hc : c = '\n'
    · rw [if_pos hc] at hl
      rcases List.mem_cons.mp hl with h1 | h2
      · subst h1; simp
      · exact ih l h2
    · rw [if_neg hc] at hl
      rcases List.mem_cons.mp hl with h1 | h2
      · subst h1
        intro hmem
        rcases List.mem_cons.mp hmem with h3 | h4
        · exact hc h3.symm
        · exact ih l0 (List.mem_cons_self ..) h4
      · exact ih l (List.mem_cons_of_mem _ h2)

/-- Joining the split lines with newlines reproduces the text. -/
theorem joinLines_splitLines (cs : List Char) : joinLines (splitLines cs) = cs := by
  induction cs with
  | nil => rfl
  | cons c rest ih =>
    obtain ⟨l0, ls, h⟩ := List.exists_cons_of_ne_nil (splitLines_ne_nil rest)
    rw [h] at ih
    rw [splitLines_cons_eq c rest l0 ls h]
    by_cases hc : c = '\n'
    · rw [if_pos hc, hc]
      cases ls with
      | nil => simpa [joinLines] using ih
      | cons l2 ls2 => simpa [joinLines] using ih
    · rw [if_neg hc]
      cases ls with
      | nil => simpa [joinLines] using congrArg (c :: ·) ih
      | cons l2 ls2 => simpa [joinLines] using congrArg (c :: ·) ih

/-- A newline-free text splits into itself as the single line. -/
theorem splitLines_of_no_newline (cs : List Char) (h : '\n' ∉ cs) :
    splitLines cs = [cs] := by
  induction cs with
  | nil => rfl
  | cons c rest ih =>
    have hrest := ih (fun hm => h (List.mem_cons_of_mem _ hm))
    have hcne : ¬(c = '\n') := by
      intro hc
      exact h (by rw [hc]; exact List.mem_cons_self ..)
    rw [splitLines_cons_eq c rest rest [] hrest, if_neg hcne]

/-- Splitting after a newline-free first line peels it off. -/
theorem splitLines_append_newline (l cs : List Char) (hl : '\n' ∉ l) :
    splitLines (l ++ '\n' :: cs) = l :: splitLines cs := by
  induction l with
  | nil =>
    simp only [List.nil_append]
    obtain ⟨l0, ls, h⟩ := List.exists_cons_of_ne_nil (splitLines_ne_nil cs)
    rw [splitLines_cons_eq '\n' cs l0 ls h, if_pos rfl, h]
  | cons c cl ih =>
    simp only [List.cons_append]
    have htail := ih (fun hm => hl (List.mem_cons_of_mem _ hm))
    have hcne : ¬(c = '\n') := by
      intro hc
      exact hl (by rw [hc]; exact List.mem_cons_self ..)
    rw [splitLines_cons_eq c (cl ++ '\n' :: cs) cl (splitLines cs) htail, if_neg hcne]

/-- Splitting a join of newline-free lines gives the lines back. -/
theorem splitLines_joinLines (ls : List (List Char)) (hne : ls ≠ [])
    (hnl : ∀ l ∈ ls, '\n' ∉ l) : splitLines (joinLines ls) = ls := by
  induction ls with
  | nil => exact absurd rfl hne
  | cons l rest ih =>
    cases rest with
    | nil =>
      show splitLines (joinLines [l]) = [l]
      exact splitLines_of_no_newline l (hnl l (List.mem_cons_self ..))
    | cons l2 rest2 =>
      show splitLines (l ++ '\n' :: joinLines (l2 :: rest2)) = l :: l2 :: rest2
      rw [splitLines_append_newline l _ (hnl l (List.mem_cons_self ..))]
      rw [ih (by simp) (fun x hx => hnl x (List.mem_cons_of_mem _ hx))]

/-- A capped line never exceeds 1000 characters (997 kept plus the three-dot
marker). -/
theorem capLine_length (l : List Char) : (capLine l).length ≤ 1000 := by
  unfold capLine
  split_ifs with h
  · simp [List.length_take]
  · omega

/-- Capping preserves newline-freeness. -/
theorem capLine_no_newline (l : List Char) (h : '\n' ∉ l) : '\n' ∉ capLine l := by
  unfold capLine
  split_ifs with hl
  · intro hm
    rcases List.mem_append.mp hm with h1 | h2
    · exact h (List.mem_of_mem_take h1)
    · simp at h2
  · exact h

/-- A line within the cap is untouched. -/
theorem capLine_of_short (l : List Char) (h : l.length ≤ 1000) : capLine l = l := by
  unfold capLine
  rw [if_neg (by omega)]

/-- The CRLF pass is the identity on carriage-return-free text. -/
theorem replaceCRLF_of_no_cr (cs : List Char) (h : '\r' ∉ cs) : replaceCRLF cs = cs := by
  induction cs with
  | nil => rfl
  | cons c rest ih =>
    have hc : c ≠ '\r' := by
      intro he
      exact h (by rw [he]; exact List.mem_cons_self ..)
    have hrest : '\r' ∉ rest := fun hm => h (List.mem_cons_of_mem _ hm)
    rw [replaceCRLF.eq_def]
    split
    · rename_i heq
      rw [List.cons.injEq] at heq
      exact absurd heq.1 hc
    · rename_i heq
      injection heq with h1 h2
      subst h1
      subst h2
      rw [ih hrest]
    · rename_i heq
      cases heq

/-- The lone-CR pass is the identity on carriage-return-free text. -/
theorem replaceCR_of_no_cr (cs : List Char) (h : '\r' ∉ cs) : replaceCR cs = cs := by
  unfold replaceCR
  have hid : ∀ c ∈ cs, (if c = '\r' then '\n' else c) = c := by
    intro c hc
    rw [if_neg]
    intro he
    exact h (by rw [← he]; exact hc)
  simpa using List.map_congr_left hid

/-- C10: `sanitize_for_github` enforces a per-line cap of 1000 characters —
every line of the output is at most 1000 characters long; the output's lines
are exactly the lines of the CRLF/CR-normalized input with each over-long
line replaced by its first 997 characters followed by `...`; and an input
that is already LF-normalized with every line at most 1000 characters is
returned unchanged. -/
theorem C10_sanitize_line_cap (t : List Char) :
    (∀ l ∈ splitLines (sanitize_for_github t), l.length ≤ 1000) ∧
    splitLines (sanitize_for_github t) =
      (splitLines (replaceCR (replaceCRLF t))).map capLine ∧
    ('\r' ∉ t → (∀ l ∈ splitLines t, l.length ≤ 1000) → sanitize_for_github t = t) := by
  have hlines : splitLines (sanitize_for_github t) =
      (splitLines (replaceCR (replaceCRLF t))).map capLine := by
    unfold sanitize_for_github
    dsimp only
    refine splitLines_joinLines _ ?_ ?_
    · simp [splitLines_ne_nil]
    · intro l hl
      rcases List.mem_map.mp hl with ⟨l0, hl0, rfl⟩
      exact capLine_no_newline l0 (mem_splitLines_no_newline _ l0 hl0)
  refine ⟨?_, hlines, ?_⟩
  · intro l hl
    rw [hlines] at hl
    rcases List.mem_map.mp hl with ⟨l0, _, rfl⟩
    exact capLine_length l0
  · intro hcr hshort
    unfold sanitize_for_github
    dsimp only
    rw [replaceCRLF_of_no_cr t hcr, replaceCR_of_no_cr t hcr]
    have hmap : (splitLines t).map capLine = splitLines t := by
      have := List.map_congr_left (fun l hl => capLine_of_short l (hshort l hl))
      simpa using this
    rw [hmap, joinLines_splitLines]

/-- C10 witness: an already-normalized two-line input is returned unchanged,
and its output lines are within the cap. -/
theorem C10_sanitize_line_cap_witness :
    sanitize_for_github ("ab\ncd".toList) = "ab\ncd".toList :=
  (C10_sanitize_line_cap ("ab\ncd".toList)).2.2 (by decide) (by decide)

end PFA
